import Mathlib

/-!
Shallow embedding of the tap-bigmarker connector
(`tap_bigmarker/client.py` and `tap_bigmarker/streams.py`), together with
theorems about the pagination hook, response validation/parsing, the
backoff session-reset handler, and the Conferences incremental window.
-/

namespace TapBigMarker

/-- A JSON value, as produced by `response.json()`. Numbers are modelled
as integers (the response bodies inspected by the code carry arrays and
objects; the numeric leaves do not influence any hook). -/
inductive Json where
  | null : Json
  | bool (b : Bool) : Json
  | num (n : Int) : Json
  | str (s : String) : Json
  | arr (xs : List Json) : Json
  | obj (fields : List (String × Json)) : Json

/-- Dictionary lookup on a JSON object: `body[k]` when `body` is an object
containing key `k`, otherwise no match (as a JSONPath child step yields
nothing on a missing key or a non-object). -/
def Json.lookup : Json → String → Option Json
  | .obj fields, k => (fields.find? (fun f => f.1 == k)).map (fun f => f.2)
  | _, _ => none

/-- Python `len` as used by the jsonpath `len` extension: defined on
arrays, strings and objects, no match otherwise. -/
def Json.pyLen : Json → Option Nat
  | .arr xs => some xs.length
  | .str s => some s.length
  | .obj fields => some fields.length
  | _ => none

/-- The shape of every `records_jsonpath` in `streams.py`: either `$[*]`
(the root array) or `$.key[*]` (the array under one key). -/
inductive RecordsPath where
  | root : RecordsPath
  | key (k : String) : RecordsPath
deriving DecidableEq

/-- The JSON value the records path points at (before the `[*]` step):
the root for `$[*]`, the value under the key for `$.key[*]`. -/
def RecordsPath.target : RecordsPath → Json → Option Json
  | .root, body => some body
  | .key k, body => body.lookup k

/-- Record extraction `extract_jsonpath(records_jsonpath, body)`: the
elements of the array the records path points at; nothing when the
target is missing or is not an array. -/
def extractRecords (p : RecordsPath) (body : Json) : List Json :=
  match p.target body with
  | some (.arr xs) => xs
  | _ => []

/-- Matches of the length path `records_jsonpath.replace("[*]", "")`
followed by a `len` step, as built in `get_next_page_token`: the `len`
of the value the records path points at, when that value exists and
supports `len`; no match otherwise. -/
def lenMatches (p : RecordsPath) (body : Json) : List Nat :=
  match p.target body with
  | some v => match v.pyLen with
    | some n => [n]
    | none => []
  | none => []

/-- The class attributes of a stream that the claims depend on
(`BigMarkerStream` defaults, overridden per subclass in `streams.py`). -/
structure Stream where
  records_path : RecordsPath
  has_pagination : Bool := true
  per_page : Nat := 10
  page_key : String := "page"
  tolerated_http_errors : List Nat := [401]
  rest_method : String := "GET"
deriving DecidableEq

/-- A Python value that may sit in the `previous_token` argument:
`None`, an integer page number, or a string. -/
inductive PageToken where
  | pynone : PageToken
  | pyint (n : Int) : PageToken
  | pystr (s : String) : PageToken
deriving DecidableEq

/-- Python truthiness on a `PageToken`: `None`, `0` and `""` are falsy. -/
def PageToken.falsy : PageToken → Bool
  | .pynone => true
  | .pyint n => n = 0
  | .pystr s => s = ""

/-- Python `a or b`: `b` when `a` is falsy, else `a`. -/
def pyOr (a b : PageToken) : PageToken :=
  if a.falsy then b else a

/-- The value of a list of decimal digit characters. -/
def digitsVal (ds : List Char) : Nat :=
  ds.foldl (fun n c => 10 * n + (c.toNat - 48)) 0

/-- Python `int(s)` on a plain decimal string (an optional leading minus
sign followed by digits); `none` models the `ValueError` raised on any
other string. Whitespace, a plus sign and underscores, which Python also
accepts, never occur in the analysed code paths and are not modelled. -/
def pyStrToInt? (s : String) : Option Int :=
  match s.data with
  | [] => none
  | '-' :: ds =>
    if ds ≠ [] ∧ ds.all Char.isDigit then some (-(digitsVal ds : Int)) else none
  | ds =>
    if ds.all Char.isDigit then some ((digitsVal ds : Int)) else none

/-- Python `int(v)` on the values reaching it in `get_next_page_token`.
After `previous_token or "1"` the argument is a non-falsy token or the
string `"1"`; `int` of `None` or of a non-numeric string would raise
`TypeError`/`ValueError`, and those cases are modelled by the default
`0`. -/
def pyIntOf : PageToken → Int
  | .pynone => 0
  | .pyint n => n
  | .pystr s => (pyStrToInt? s).getD 0

/-- Model of `BigMarkerStream.get_next_page_token` (client.py lines
50-80): `None` when the stream opts out of pagination; otherwise read
the record count at the length path (defaulting to `0` when nothing
matches) and return `int(previous_token or "1") + 1` when the count is
positive, `None` otherwise. -/
def get_next_page_token (s : Stream) (body : Json) (previous_token : PageToken) :
    Option Int :=
  if s.has_pagination = false then
    none
  else if (lenMatches s.records_path body).headD 0 > 0 then
    some (pyIntOf (pyOr previous_token (.pystr "1")) + 1)
  else
    none

/-- Model of `ChannelsStream` (streams.py lines 14-25): records at
`$.channels[*]`, pagination disabled. -/
def ChannelsStream : Stream :=
  { records_path := .key "channels", has_pagination := false }

/-- Model of `ConferencesStream` (streams.py lines 52-60): records at
`$.conferences[*]`, POST method, pagination left enabled. -/
def ConferencesStream : Stream :=
  { records_path := .key "conferences", rest_method := "POST" }

/-- An HTTP response as the overridden hooks see it: status code, reason
phrase, the path and query components of the request URL, the JSON body
(`none` when the body is not valid JSON, so that `response.json()` would
raise), and the text that the framework's `response_error_message`
helper derives from the response. -/
structure Response where
  status_code : Nat
  reason : String
  path : String
  query : String
  body : Option Json
  error_message : String

/-- The warning message built in `validate_response` for a tolerated
status code (client.py lines 133-140), including the request path and
query string; the two f-strings are concatenated with no separator. -/
def toleratedWarning (r : Response) : String :=
  toString r.status_code ++ " Tolerated Status Code (Reason: " ++ r.reason ++
    ") for path: " ++ r.path ++ "Query: " ++ r.query

/-- The outcome of `validate_response`: a normal return (with the logged
warning, if any), a raised `RetriableAPIError`, or a raised
`FatalAPIError`. -/
inductive ValidateResult where
  | ok (warning : Option String) : ValidateResult
  | retriableError (msg : String) : ValidateResult
  | fatalError (msg : String) : ValidateResult
deriving DecidableEq

/-- Model of `BigMarkerStream.validate_response` (client.py lines
101-150): a tolerated status logs a warning and returns; else a status
in `extra_retry_statuses` or in 500-599 raises `RetriableAPIError`; else
a status in 400-499 raises `FatalAPIError`; else return normally.
`extra_retry_statuses` is a framework attribute the class leaves
untouched, taken here as a parameter. -/
def validate_response (s : Stream) (extra_retry_statuses : List Nat)
    (r : Response) : ValidateResult :=
  if r.status_code ∈ s.tolerated_http_errors then
    .ok (some (toleratedWarning r))
  else if r.status_code ∈ extra_retry_statuses ∨
      (500 ≤ r.status_code ∧ r.status_code < 600) then
    .retriableError r.error_message
  else if 400 ≤ r.status_code ∧ r.status_code < 500 then
    .fatalError r.error_message
  else
    .ok none

/-- Model of `BigMarkerStream.parse_response` (client.py lines 95-99): a
tolerated status yields no records before the body is ever touched;
otherwise the records are extracted from the parsed JSON body (`none`
models the exception `response.json()` raises on an unparseable
body). -/
def parse_response (s : Stream) (r : Response) : Option (List Json) :=
  if r.status_code ∈ s.tolerated_http_errors then
    some []
  else
    r.body.map (extractRecords s.records_path)

/-- A Python timezone-aware UTC datetime at one-second resolution,
as a day number since 1970-01-01 plus a second-of-day. The code only
builds such values from epoch timestamps, zeroes the time-of-day
fields, compares, and subtracts whole days, so this abstraction of the
calendar fields is exact. -/
structure PyDatetime where
  day : Int
  sod : Int
deriving DecidableEq

/-- Model of `datetime.fromtimestamp(ts, timezone.utc)` at one-second
resolution: floor-divide the epoch timestamp into a day and a
second-of-day. -/
def PyDatetime.fromtimestamp (ts : Int) : PyDatetime :=
  { day := ts / 86400, sod := ts % 86400 }

/-- Model of `.replace(hour=0, minute=0, second=0, microsecond=0)`:
zero the time-of-day fields, keeping the calendar day. -/
def PyDatetime.atMidnight (d : PyDatetime) : PyDatetime :=
  { d with sod := 0 }

/-- The epoch start `datetime(1970, 1, 1, tzinfo=timezone.utc)`. -/
def epochStart : PyDatetime := { day := 0, sod := 0 }

/-- Python datetime comparison `a < b` (UTC both sides): lexicographic on
day then time of day. -/
def PyDatetime.before (a b : PyDatetime) : Prop :=
  a.day < b.day ∨ (a.day = b.day ∧ a.sod < b.sod)

instance (a b : PyDatetime) : Decidable (a.before b) := by
  unfold PyDatetime.before
  infer_instance

/-- Subtraction of one day, `d - timedelta(days=1)`. -/
def PyDatetime.subDay (d : PyDatetime) : PyDatetime :=
  { d with day := d.day - 1 }

/-- Epoch seconds of the datetime, `d.timestamp()`. -/
def PyDatetime.timestamp (d : PyDatetime) : Int :=
  86400 * d.day + d.sod

/-- The per-partition state of the Conferences stream: the `last_date`
key, an epoch timestamp, absent before the first completed sync. Python
stores it as a float; the model keeps whole seconds, which day
truncation makes exact. -/
structure ConfState where
  last_date : Option Int
deriving DecidableEq

/-- The URL/body parameters built by `ConferencesStream.get_url_params`:
the page token under `page_key` when present, `per_page`, and
`start_time`. -/
structure ConfParams where
  page : Option Int
  per_page : Option Nat
  start_time : Int
deriving DecidableEq

/-- Model of `ConferencesStream.get_url_params` (streams.py lines
67-87): read `last_date` from state defaulting to 0, truncate it to UTC
midnight, subtract one day when the result is after the epoch start,
and emit it as `start_time` together with the (truthy) page token and
the page size. -/
def conferences_get_url_params (state : ConfState) (next_page_token : Option Int) :
    ConfParams :=
  let ld := (PyDatetime.fromtimestamp (state.last_date.getD 0)).atMidnight
  let ld := if epochStart.before ld then ld.subDay else ld
  { page := match next_page_token with
      | some t => if t = 0 then none else some t
      | none => none,
    per_page := if ConferencesStream.per_page = 0 then none
      else some ConferencesStream.per_page,
    start_time := ld.timestamp }

/-- The window rule in the spec's words, directly on epoch seconds:
truncate `last_date` to UTC midnight and subtract one full day exactly
when that truncated day is after the epoch start. -/
def startTimeSpec (last_date : Int) : Int :=
  let truncated := 86400 * (last_date / 86400)
  if 0 < truncated then truncated - 86400 else truncated

/-- Model of `ConferencesStream.get_records` (streams.py lines 89-100):
yield the post-processed records, then overwrite `last_date` with the
wall-clock UTC timestamp at completion (`now`, supplied by the
environment). -/
def conferences_get_records (post : Json → Option Json) (fetched : List Json)
    (now : Int) (_state : ConfState) : List Json × ConfState :=
  (fetched.filterMap post, { last_date := some now })

/-- The connection-session bookkeeping visible to `backoff_handler`:
the live session (tagged with its creation index; `none` after a close
or before first use), how many sessions have been created, and how many
times the handler has torn one down. -/
structure SessionState where
  session : Option Nat
  created : Nat
  closes : Nat
deriving DecidableEq

/-- Model of `BigMarkerStream.backoff_handler` (client.py lines
168-173): after a failed try, when the number of tries so far exceeds
5, close the session and null the reference so the framework lazily
recreates it. -/
def backoff_handler (tries : Nat) (st : SessionState) : SessionState :=
  if tries > 5 then
    { st with session := none, closes := st.closes + 1 }
  else
    st

/-- The framework's lazy `requests_session` property: reuse the live
session, or create a fresh one when the reference is null. -/
def ensureSession (st : SessionState) : SessionState :=
  match st.session with
  | some _ => st
  | none => { st with session := some st.created, created := st.created + 1 }

/-- One retriable failure numbered `tries` (1-based) of the same
request: acquire the (possibly recreated) session, fail, and run the
backoff handler with the try count. -/
def failingTry (tries : Nat) (st : SessionState) : SessionState :=
  backoff_handler tries (ensureSession st)

/-- The session state after `n` consecutive retriable failures of one
request, starting with no session. -/
def retryRun : Nat → SessionState
  | 0 => ⟨none, 0, 0⟩
  | n + 1 => failingTry (n + 1) (retryRun n)

/-- The session that try number `i` (1-based) uses: the live session
after lazy recreation, given the first `i - 1` tries failed. -/
def sessionUsedOnTry (i : Nat) : Option Nat :=
  (ensureSession (retryRun (i - 1))).session

end TapBigMarker

namespace TapBigMarker

/-- C1: with pagination enabled, a record count of 0 at the length path
yields no next page whatever the previous token; a positive count yields
`previous_token + 1` for a set (truthy integer) token and `2` for an
unset one. -/
theorem c1_next_page_token (s : Stream) (body : Json)
    (hpag : s.has_pagination = true) :
    ((lenMatches s.records_path body).headD 0 = 0 →
      ∀ t : PageToken, get_next_page_token s body t = none) ∧
    (0 < (lenMatches s.records_path body).headD 0 →
      (∀ k : Int, k ≠ 0 →
        get_next_page_token s body (.pyint k) = some (k + 1)) ∧
      get_next_page_token s body .pynone = some 2) := by
  refine ⟨fun h0 t => ?_, fun hpos => ⟨fun k hk => ?_, ?_⟩⟩
  · unfold get_next_page_token
    rw [hpag, h0]
    norm_num
  · unfold get_next_page_token
    rw [hpag]
    simp only [Bool.true_eq_false, if_false, if_pos hpos]
    simp [pyOr, PageToken.falsy, pyIntOf, hk]
  · unfold get_next_page_token
    rw [hpag]
    simp only [Bool.true_eq_false, if_false, if_pos hpos]
    simp only [pyOr, PageToken.falsy, if_pos rfl]
    norm_num [pyIntOf, pyStrToInt?, digitsVal]
    rfl

/-- Witness for C1 at the Conferences stream: a two-record page advances
token 3 to 4 and an absent token to 2; an empty page ends pagination. -/
theorem c1_next_page_token_witness :
    ConferencesStream.has_pagination = true ∧
    ((lenMatches ConferencesStream.records_path
        (Json.obj [("conferences", Json.arr [])])).headD 0 = 0 ∧
      get_next_page_token ConferencesStream
        (Json.obj [("conferences", Json.arr [])]) (.pyint 7) = none) ∧
    (0 < (lenMatches ConferencesStream.records_path
        (Json.obj [("conferences", Json.arr [Json.null, Json.null])])).headD 0 ∧
      get_next_page_token ConferencesStream
        (Json.obj [("conferences", Json.arr [Json.null, Json.null])])
        (.pyint 3) = some 4 ∧
      get_next_page_token ConferencesStream
        (Json.obj [("conferences", Json.arr [Json.null, Json.null])])
        .pynone = some 2) := by
  have h1 := c1_next_page_token ConferencesStream
    (Json.obj [("conferences", Json.arr [])]) rfl
  have h2 := c1_next_page_token ConferencesStream
    (Json.obj [("conferences", Json.arr [Json.null, Json.null])]) rfl
  refine ⟨rfl, ⟨rfl, h1.1 rfl _⟩, by norm_num [lenMatches, RecordsPath.target,
    Json.lookup, List.find?, Json.pyLen, ConferencesStream], ?_, ?_⟩
  · exact (h2.2 (by norm_num [lenMatches, RecordsPath.target, Json.lookup,
      List.find?, Json.pyLen, ConferencesStream])).1 3 (by norm_num)
  · exact (h2.2 (by norm_num [lenMatches, RecordsPath.target, Json.lookup,
      List.find?, Json.pyLen, ConferencesStream])).2

/-- C2: a stream with `has_pagination = false` reports no further pages
for every response body and every previous token; `ChannelsStream` is
such a stream. -/
theorem c2_no_pagination (s : Stream) (hs : s.has_pagination = false) :
    (∀ (body : Json) (t : PageToken), get_next_page_token s body t = none) ∧
    ChannelsStream.has_pagination = false := by
  refine ⟨fun body t => ?_, rfl⟩
  unfold get_next_page_token
  simp [hs]

/-- Witness for C2: the Channels stream returns no next page even on a
body holding a non-empty `channels` array and a set previous token. -/
theorem c2_no_pagination_witness :
    ChannelsStream.has_pagination = false ∧
    get_next_page_token ChannelsStream
      (Json.obj [("channels", Json.arr [Json.null])]) (.pyint 4) = none := by
  refine ⟨rfl, ?_⟩
  exact (c2_no_pagination ChannelsStream rfl).1 _ _

/-- C3: `validate_response` classifies every status code: tolerated
codes return normally with a warning naming the request path and query
string; otherwise extra-retry or 500-599 codes raise a retriable error
with the descriptive message from the response; otherwise 400-499 codes
raise a fatal error; every other code returns normally with no
warning. -/
theorem c3_validate_response (s : Stream) (extra : List Nat) (r : Response) :
    (r.status_code ∈ s.tolerated_http_errors →
      validate_response s extra r = .ok (some (toleratedWarning r))) ∧
    (r.status_code ∉ s.tolerated_http_errors →
      (r.status_code ∈ extra ∨ (500 ≤ r.status_code ∧ r.status_code < 600)) →
      validate_response s extra r = .retriableError r.error_message) ∧
    (r.status_code ∉ s.tolerated_http_errors →
      r.status_code ∉ extra → ¬ (500 ≤ r.status_code ∧ r.status_code < 600) →
      400 ≤ r.status_code → r.status_code < 500 →
      validate_response s extra r = .fatalError r.error_message) ∧
    (r.status_code ∉ s.tolerated_http_errors →
      r.status_code ∉ extra → ¬ (500 ≤ r.status_code ∧ r.status_code < 600) →
      ¬ (400 ≤ r.status_code ∧ r.status_code < 500) →
      validate_response s extra r = .ok none) := by
  unfold validate_response
  refine ⟨fun ht => ?_, fun ht hr => ?_, fun ht he h5 h4a h4b => ?_,
    fun ht he h5 h4 => ?_⟩
  · rw [if_pos ht]
  · rw [if_neg ht, if_pos hr]
  · rw [if_neg ht, if_neg (by tauto), if_pos ⟨h4a, h4b⟩]
  · rw [if_neg ht, if_neg (by tauto), if_neg h4]

/-- Witness for C3 on the default tolerated set `[401]` and extra-retry
set `[429]`: 401 is tolerated, 429 and 503 are retriable, 404 is fatal,
200 is success. -/
theorem c3_validate_response_witness :
    (validate_response ConferencesStream [429]
      ⟨401, "Unauthorized", "/channels", "page=1", none, "e"⟩ =
      .ok (some (toleratedWarning
        ⟨401, "Unauthorized", "/channels", "page=1", none, "e"⟩))) ∧
    (validate_response ConferencesStream [429]
      ⟨429, "Too Many Requests", "/channels", "", none, "m429"⟩ =
      .retriableError "m429") ∧
    (validate_response ConferencesStream [429]
      ⟨503, "Service Unavailable", "/channels", "", none, "m503"⟩ =
      .retriableError "m503") ∧
    (validate_response ConferencesStream [429]
      ⟨404, "Not Found", "/channels", "", none, "m404"⟩ =
      .fatalError "m404") ∧
    (validate_response ConferencesStream [429]
      ⟨200, "OK", "/channels", "", none, "m200"⟩ = .ok none) := by
  refine ⟨?_, ?_, ?_, ?_, ?_⟩
  · exact (c3_validate_response ConferencesStream [429] _).1 (by decide)
  · exact (c3_validate_response ConferencesStream [429] _).2.1 (by decide)
      (by decide)
  · exact (c3_validate_response ConferencesStream [429] _).2.1 (by decide)
      (by decide)
  · exact (c3_validate_response ConferencesStream [429] _).2.2.1 (by decide)
      (by decide) (by decide) (by decide) (by decide)
  · exact (c3_validate_response ConferencesStream [429] _).2.2.2 (by decide)
      (by decide) (by decide) (by decide)

/-- C4: for a tolerated status code, `parse_response` yields the empty
record sequence for every body, including one that is not valid JSON,
so the body is never parsed. -/
theorem c4_parse_tolerated (s : Stream) (r : Response)
    (ht : r.status_code ∈ s.tolerated_http_errors) :
    parse_response s r = some [] ∧
    (∀ b : Option Json, parse_response s { r with body := b } = some []) := by
  unfold parse_response
  exact ⟨by rw [if_pos ht], fun b => by rw [if_pos ht]⟩

/-- Witness for C4: a 401 response with an unparseable body still yields
the empty record sequence on the Channels stream. -/
theorem c4_parse_tolerated_witness :
    (401 ∈ ChannelsStream.tolerated_http_errors) ∧
    parse_response ChannelsStream
      ⟨401, "Unauthorized", "/channels", "", none, "e"⟩ = some [] := by
  refine ⟨by decide, ?_⟩
  exact (c4_parse_tolerated ChannelsStream
    ⟨401, "Unauthorized", "/channels", "", none, "e"⟩ (by decide)).1

/-- C5: the Conferences `start_time` parameter is `last_date` truncated
to UTC midnight, minus one day when that truncated day is after the
epoch start; in particular `last_date = 0` gives `start_time = 0`, and
`last_date = 1710496800` (2024-03-15T10:00:00Z) gives
`start_time = 1710374400` (2024-03-14T00:00:00Z). -/
theorem c5_conferences_window (ld : Int) (tok : Option Int) :
    (conferences_get_url_params ⟨some ld⟩ tok).start_time = startTimeSpec ld ∧
    (conferences_get_url_params ⟨some 0⟩ tok).start_time = 0 ∧
    (conferences_get_url_params ⟨some 1710496800⟩ tok).start_time = 1710374400 := by
  refine ⟨?_, ?_, ?_⟩
  · show (if epochStart.before
        ((PyDatetime.fromtimestamp ld).atMidnight) then
          ((PyDatetime.fromtimestamp ld).atMidnight).subDay
        else (PyDatetime.fromtimestamp ld).atMidnight).timestamp
      = startTimeSpec ld
    simp only [PyDatetime.fromtimestamp, PyDatetime.atMidnight, epochStart,
      PyDatetime.before, PyDatetime.subDay, PyDatetime.timestamp, startTimeSpec]
    split_ifs with h1 h2 h3 <;> (try dsimp only) <;> omega
  · rfl
  · rfl

/-- C6: after a Conferences sync invocation, `last_date` holds the
wall-clock timestamp at completion, independent of the fetched records,
the post-processing hook and the prior state. -/
theorem c6_sync_completion (post post2 : Json → Option Json)
    (fetched fetched2 : List Json) (now : Int) (st st2 : ConfState) :
    (conferences_get_records post fetched now st).2.last_date = some now ∧
    (conferences_get_records post fetched now st).2 =
      (conferences_get_records post2 fetched2 now st2).2 :=
  ⟨rfl, rfl⟩

/-- C8: across two successive Conferences syncs finishing at times
`t1 ≤ t2`, the persisted `last_date` values are non-decreasing; and the
look-back applied when state is read only widens the window, the
computed `start_time` never exceeding the stored `last_date`. -/
theorem c8_last_date_monotone (post : Json → Option Json)
    (r1 r2 : List Json) (t1 t2 : Int) (h12 : t1 ≤ t2) (st0 : ConfState) :
    ((conferences_get_records post r1 t1 st0).2.last_date.getD 0 ≤
      (conferences_get_records post r2 t2
        (conferences_get_records post r1 t1 st0).2).2.last_date.getD 0) ∧
    (∀ (ld : Int) (tok : Option Int),
      (conferences_get_url_params ⟨some ld⟩ tok).start_time ≤ ld) := by
  refine ⟨h12, fun ld tok => ?_⟩
  rw [(c5_conferences_window ld tok).1]
  unfold startTimeSpec
  dsimp only
  split_ifs with h <;> omega

/-- Witness for C8 at `t1 = 100`, `t2 = 200`, `last_date = 1710496800`. -/
theorem c8_last_date_monotone_witness :
    (100 : Int) ≤ 200 ∧
    ((conferences_get_records (fun j => some j) [] 100 ⟨none⟩).2.last_date.getD 0 ≤
      (conferences_get_records (fun j => some j) [] 200
        (conferences_get_records (fun j => some j) [] 100 ⟨none⟩).2).2.last_date.getD 0) ∧
    (conferences_get_url_params ⟨some 1710496800⟩ none).start_time ≤ 1710496800 := by
  refine ⟨by norm_num, ?_, ?_⟩
  · exact (c8_last_date_monotone (fun j => some j) [] [] 100 200 (by norm_num) ⟨none⟩).1
  · exact (c8_last_date_monotone (fun j => some j) [] [] 100 200 (by norm_num) ⟨none⟩).2
      1710496800 none

/-- Closed form of the retry run past the fifth failure: the handler
has closed the session after every later try, so after `m ≥ 6` failures
the session reference is null and `m - 5` sessions have been created
and torn down. -/
theorem retryRun_of_ge_six (m : Nat) (hm : 6 ≤ m) :
    retryRun m = ⟨none, m - 5, m - 5⟩ := by
  induction m with
  | zero => omega
  | succ n ih =>
    rcases Nat.lt_or_ge n 6 with hn | hn
    · have h5 : n = 5 := by omega
      subst h5
      rfl
    · rw [show n + 1 - 5 = (n - 5) + 1 by omega]
      unfold retryRun failingTry
      rw [ih hn]
      unfold ensureSession backoff_handler
      simp only [if_pos (by omega : n + 1 > 5)]

/-- Counterexample to C7: in a run of 7 consecutive retriable failures
the session is torn down twice, not exactly once, and try 6 still uses
the original session created for try 1, so no teardown happens on the
transition from try 5 to try 6. -/
theorem c7_counterexample :
    (retryRun 7).closes = 2 ∧
    sessionUsedOnTry 6 = sessionUsedOnTry 1 ∧
    (retryRun 5).closes = 0 := by
  refine ⟨?_, rfl, rfl⟩
  rw [retryRun_of_ge_six 7 (by omega)]

/-- C7 (amended): the handler tears the session down after every failed
try beyond the fifth — `n - 5` times over `n ≥ 6` consecutive failures,
first on the transition from try 6 to try 7 (tries 1 through 6 all use
the original session), and every try from the 7th onward uses a freshly
recreated session, distinct from the original and from each other. -/
theorem c7_session_reset (n : Nat) (hn : 6 ≤ n) :
    (retryRun n).closes = n - 5 ∧
    (retryRun 5).closes = 0 ∧
    (∀ i, 1 ≤ i → i ≤ 6 → sessionUsedOnTry i = some 0) ∧
    (∀ i, 7 ≤ i → sessionUsedOnTry i = some (i - 6)) := by
  refine ⟨by rw [retryRun_of_ge_six n hn], rfl, fun i h1 h6 => ?_,
    fun i h7 => ?_⟩
  · interval_cases i <;> rfl
  · unfold sessionUsedOnTry
    rw [retryRun_of_ge_six (i - 1) (by omega)]
    show some (i - 1 - 5) = some (i - 6)
    exact congrArg some (by omega)

/-- Witness for C7 (amended) at a run of 9 failures: three teardowns,
try 6 on the original session, tries 7 and 9 on fresh sessions. -/
theorem c7_session_reset_witness :
    (6 ≤ 9) ∧
    (retryRun 9).closes = 9 - 5 ∧
    sessionUsedOnTry 6 = some 0 ∧
    sessionUsedOnTry 7 = some 1 ∧
    sessionUsedOnTry 9 = some 3 := by
  have h := c7_session_reset 9 (by omega)
  refine ⟨by omega, h.1, h.2.2.1 6 (by omega) (by omega), ?_, ?_⟩
  · have := h.2.2.2 7 (by omega)
    simpa using this
  · have := h.2.2.2 9 (by omega)
    simpa using this

/-- Python `a or b` picks the right operand when the left is falsy. -/
theorem pyOr_falsy (a b : PageToken) (h : a.falsy = true) : pyOr a b = b := by
  unfold pyOr
  rw [h]
  rfl

/-- Evaluation fact for the model: `int` maps the string `"1"` to 1. -/
theorem pyIntOf_one : pyIntOf (.pystr "1") = 1 := by decide

/-- C9: with pagination enabled and a positive record count, a falsy
previous token — `None`, the integer `0`, or the empty string — is
coerced to the default prior value 1, so the hook returns 2 and not
1. -/
theorem c9_falsy_token (s : Stream) (body : Json)
    (hpag : s.has_pagination = true)
    (hpos : 0 < (lenMatches s.records_path body).headD 0) :
    ∀ t : PageToken, t.falsy = true →
      get_next_page_token s body t = some 2 ∧
      get_next_page_token s body t ≠ some 1 := by
  intro t ht
  unfold get_next_page_token
  rw [hpag]
  simp only [Bool.true_eq_false, if_false, if_pos hpos]
  rw [pyOr_falsy t _ ht, pyIntOf_one]
  norm_num

/-- Witness for C9: on a one-record Conferences page, tokens `None`,
`0` and `""` all advance to page 2. -/
theorem c9_falsy_token_witness :
    ConferencesStream.has_pagination = true ∧
    0 < (lenMatches ConferencesStream.records_path
      (Json.obj [("conferences", Json.arr [Json.null])])).headD 0 ∧
    get_next_page_token ConferencesStream
      (Json.obj [("conferences", Json.arr [Json.null])]) .pynone = some 2 ∧
    get_next_page_token ConferencesStream
      (Json.obj [("conferences", Json.arr [Json.null])]) (.pyint 0) = some 2 ∧
    get_next_page_token ConferencesStream
      (Json.obj [("conferences", Json.arr [Json.null])])
      (.pystr "") = some 2 := by
  have hlen : 0 < (lenMatches ConferencesStream.records_path
      (Json.obj [("conferences", Json.arr [Json.null])])).headD 0 := by
    norm_num [lenMatches, RecordsPath.target, Json.lookup, List.find?,
      Json.pyLen, ConferencesStream]
  have h := c9_falsy_token ConferencesStream
    (Json.obj [("conferences", Json.arr [Json.null])]) rfl hlen
  exact ⟨rfl, hlen, (h .pynone rfl).1, (h (.pyint 0) rfl).1, (h (.pystr "") rfl).1⟩

/-- C10: when the length query matches nothing in the response body
(for instance the expected collection key is absent), the record count
defaults to 0 and the hook reports no more pages for every previous
token, raising no error. -/
theorem c10_len_no_match (s : Stream) (body : Json)
    (hnone : lenMatches s.records_path body = []) :
    ∀ t : PageToken, get_next_page_token s body t = none := by
  intro t
  unfold get_next_page_token
  rw [hnone]
  norm_num

/-- Witness for C10: a Conferences response without the `conferences`
key ends pagination whatever the previous token. -/
theorem c10_len_no_match_witness :
    lenMatches ConferencesStream.records_path
      (Json.obj [("channels", Json.arr [Json.null])]) = [] ∧
    get_next_page_token ConferencesStream
      (Json.obj [("channels", Json.arr [Json.null])]) (.pyint 3) = none := by
  have hnone : lenMatches ConferencesStream.records_path
      (Json.obj [("channels", Json.arr [Json.null])]) = [] := by
    rfl
  exact ⟨hnone, c10_len_no_match ConferencesStream _ hnone (.pyint 3)⟩

end TapBigMarker
